import Mathlib

/-!
# Verification of the sipgox media transport core

Shallow embedding of the RTP/RTCP media session core of the `sipgox`
repository: format negotiation (`media.go`), remote address bookkeeping,
raw RTP writes and the short-write check, the DTMF (RFC 4733) event codec,
the RTP reader's payload-draining `Read` loop (`rtp_reader.go`), and the
RTP writer's packetization (`rtp_writer.go`).

Bytes are modelled as `Nat` values below 256; Go byte conversions are made
explicit with `% 256` where a value could exceed a byte.  UDP sockets are
modelled as explicit queues of datagrams (byte lists), and fallible Go
functions return `Option`/`Except`.
-/

namespace Sipgox

/-! ## Format negotiation (`media.go`, `updateFormats`)

`updateFormats` receives the remote answer's format list and intersects it
against the session's current (local) format list with two nested loops:
for each remote format `cr`, for each local format `cs`, append `cr` to the
filter when they are equal.  When the local list is empty the remote list
is adopted wholesale.  The Go function returns nothing and never fails. -/

/-- Embedding of `MediaSession.updateFormats` (`media.go` lines 112–137):
the new value of `s.Formats` given the current value `sFormats` and the
remote answer's `formats`. -/
def updateFormats (sFormats : List String) (formats : List String) : List String :=
  if 0 < sFormats.length then
    formats.foldl
      (fun filter cr =>
        sFormats.foldl (fun filter cs => if cr = cs then filter ++ [cr] else filter) filter)
      []
  else
    formats

/-- The specification's description of negotiation: the elements of the
remote answer that also occur in the local list, in the remote answer's
order.  Stated from the spec's words, to be compared with `updateFormats`. -/
def specNegotiatedFormats (localFormats : List String) (remoteFormats : List String) :
    List String :=
  remoteFormats.filter (fun f => f ∈ localFormats)

/-! ## DTMF event codec (`media.go`, RFC 4733)

`DTMFEvent` is the value object; `DTMFEncode` packs it into 4 bytes,
`DTMFDecode` parses 4 bytes back, and `RTPDTMFEncode` produces the
redundant 7-event transmission pattern for one digit.  Bytes are `Nat`
values; Go's `byte(...)` conversions appear as `% 256`. -/

/-- Embedding of the `DTMFEvent` struct (`media.go` lines 532–538).
`event` and `volume` are `uint8`, `duration` is `uint16`; the fields hold
the Go values as natural numbers. -/
structure DTMFEvent where
  event : Nat
  endOfEvent : Bool
  volume : Nat
  duration : Nat
deriving DecidableEq, Repr

/-- Embedding of `DTMFEncode` (`media.go` lines 563–573): 4-byte packing.
`header[1]` is `0x80` for end-of-event, OR-ed with `volume & 0x3F`;
bytes 2–3 are the duration big-endian. -/
def DTMFEncode (d : DTMFEvent) : List Nat :=
  [d.event % 256,
   (if d.endOfEvent then 128 else 0) ||| (d.volume % 256 &&& 63),
   d.duration % 65536 / 256,
   d.duration % 65536 % 256]

/-- Embedding of `DTMFDecode` (`media.go` lines 550–561): fails when the
payload is shorter than 4 bytes, otherwise reads event, end-of-event flag
(bit 7 of byte 1), volume (bits 0–6 of byte 1) and big-endian duration. -/
def DTMFDecode (payload : List Nat) : Option DTMFEvent :=
  if payload.length < 4 then
    none
  else
    some
      { event := payload.getD 0 0
        endOfEvent := payload.getD 1 0 &&& 128 ≠ 0
        volume := payload.getD 1 0 &&& 127
        duration := payload.getD 2 0 * 256 + payload.getD 3 0 }

/-- Embedding of the `dtmfEventMapping` table (`media.go` lines 482–499).
A Go map lookup; `none` models an absent key. -/
def dtmfEventMapping (c : Char) : Option Nat :=
  if c = '0' then some 0
  else if c = '1' then some 1
  else if c = '2' then some 2
  else if c = '3' then some 3
  else if c = '4' then some 4
  else if c = '5' then some 5
  else if c = '6' then some 6
  else if c = '7' then some 7
  else if c = '8' then some 8
  else if c = '9' then some 9
  else if c = '*' then some 10
  else if c = '#' then some 11
  else if c = 'A' then some 12
  else if c = 'B' then some 13
  else if c = 'C' then some 14
  else if c = 'D' then some 15
  else none

/-- Embedding of `RTPDTMFEncode` (`media.go` lines 503–530).  The Go map
access `dtmfEventMapping[char]` yields the zero value `0` when the key is
absent, modelled by `Option.getD 0`.  Four in-progress events with
durations `160*(i+1)` are followed by three end events with duration
`160*5`; every event has volume 10. -/
def RTPDTMFEncode (char : Char) : List DTMFEvent :=
  let event := (dtmfEventMapping char).getD 0
  (List.range 4).map
      (fun i => { event := event, endOfEvent := false, volume := 10,
                  duration := 160 * (i + 1) })
    ++ (List.range 3).map
      (fun _ => { event := event, endOfEvent := true, volume := 10,
                  duration := 160 * 5 })

/-! ## Media session state (`media.go`)

The `MediaSession` struct owns the resolved addresses and the negotiated
format list.  The UDP sockets and the logger are runtime resources outside
the negotiation state; socket I/O is modelled where a claim needs it (see
`PacketConn` and the reader's datagram queue below). -/

/-- Embedding of `net.UDPAddr`: a resolved IP (kept abstract as a string)
and a port. -/
structure UDPAddr where
  ip : String
  port : Nat
deriving DecidableEq, Repr

/-- Embedding of the negotiation-relevant state of `MediaSession`
(`media.go` lines 30–48): remote RTP address, remote RTCP address, local
address and the negotiated format list.  `none` models a nil pointer. -/
structure MediaSession where
  raddr : Option UDPAddr
  rtcpRaddr : Option UDPAddr
  laddr : UDPAddr
  formats : List String
deriving DecidableEq, Repr

/-- Modelled from the spec: the `sdp` package (an external collaborator,
out of the core's scope) defines `FORMAT_TYPE_ULAW` as the format
identifier string of PCMU, payload type 0. -/
def FORMAT_TYPE_ULAW : String := "0"

/-- Modelled from the spec: the external `sdp` package's
`FORMAT_TYPE_ALAW`, the format identifier string of PCMA, payload type 8. -/
def FORMAT_TYPE_ALAW : String := "8"

/-- Embedding of `NewMediaSession`'s in-memory initialization (`media.go`
lines 50–66): formats default to ULAW then ALAW; socket binding is a
runtime effect outside this state. -/
def NewMediaSessionState (laddr : UDPAddr) : MediaSession :=
  { raddr := none, rtcpRaddr := none, laddr := laddr,
    formats := [FORMAT_TYPE_ULAW, FORMAT_TYPE_ALAW] }

/-- Embedding of `MediaSession.SetRemoteAddr` (`media.go` lines 74–79):
stores the remote RTP address and derives the RTCP address by copying it
and incrementing the port. -/
def SetRemoteAddr (s : MediaSession) (raddr : UDPAddr) : MediaSession :=
  { s with raddr := some raddr,
           rtcpRaddr := some { raddr with port := raddr.port + 1 } }

/-- Embedding of `MediaSession.RemoteSDP` (`media.go` lines 88–110) after
SDP parsing has succeeded.  SDP parsing belongs to the external `sdp`
collaborator, so the parsed connection IP, audio media port and format
list are taken as inputs; every error return of `RemoteSDP` lies in those
parsing steps, and past them the function sets the remote address, updates
the formats and returns `nil`. -/
def remoteSDPNegotiate (s : MediaSession) (ip : String) (port : Nat)
    (formats : List String) : Except String MediaSession :=
  let s1 := SetRemoteAddr s { ip := ip, port := port }
  Except.ok { s1 with formats := updateFormats s1.formats formats }

/-- Embedding of `MediaSession.UpdateDestinationSDP` (`media.go` lines
256–279) after SDP parsing has succeeded.  The Go code mutates the fields
of the existing `s.Raddr` in place (dereferencing it, hence `none` when no
remote address was ever set) and re-runs `updateFormats`; `rtcpRaddr` is
not touched. -/
def updateDestinationSDPNegotiate (s : MediaSession) (ip : String) (port : Nat)
    (formats : List String) : Option MediaSession :=
  s.raddr.map fun r =>
    { s with raddr := some { r with ip := ip, port := port },
             formats := updateFormats s.formats formats }

/-! ## Raw RTP writes (`media.go`, `WriteRTP`/`WriteRTPRaw`) -/

/-- Errors surfaced by the write path.  `shortWrite` embeds
`io.ErrShortWrite`; `other` carries any transport error. -/
inductive WriteErr where
  | shortWrite
  | other (msg : String)
deriving DecidableEq, Repr

/-- Model of the RTP socket's datagram write: `net.PacketConn.WriteTo`
returns the number of bytes transmitted and an optional error. -/
structure PacketConn where
  writeTo : List Nat → UDPAddr → Nat × Option WriteErr

/-- Embedding of `MediaSession.WriteRTPRaw` (`media.go` lines 412–415):
forwards the buffer to the socket's `WriteTo` aimed at the remote RTP
address and returns the count and error unchanged. -/
def WriteRTPRaw (conn : PacketConn) (raddr : UDPAddr) (data : List Nat) :
    Nat × Option WriteErr :=
  conn.writeTo data raddr

/-- Embedding of `MediaSession.WriteRTP` (`media.go` lines 391–410) on the
already-marshalled packet bytes (`p.Marshal()` belongs to the external
pion library): calls `WriteRTPRaw`, propagates its error, and returns
`io.ErrShortWrite` when fewer bytes than the marshalled length were
written. -/
def WriteRTPMarshalled (conn : PacketConn) (raddr : UDPAddr) (data : List Nat) :
    Option WriteErr :=
  match WriteRTPRaw conn raddr data with
  | (_, some e) => some e
  | (n, none) => if n ≠ data.length then some WriteErr.shortWrite else none

/-! ## Extended sequence tracking and RTP parsing

`rtp_reader.go` and `rtp_writer.go` use the `RTPExtendedSequenceNumber`
tracker, whose defining source file is not part of this repository
snapshot; it is modelled from §4.4 of the spec.  The RTP wire format comes
from the external pion library and is modelled from §6 of the spec. -/

/-- Modelled from the spec: the Extended Sequence Tracker state
(`RTPExtendedSequenceNumber`, spec §3/§4.4; its source file is missing
from this snapshot) — a count of observed 16-bit wraps and the last raw
sequence number seen. -/
structure RTPExtendedSequenceNumber where
  baseCycle : Nat
  lastSeen16 : Nat
deriving DecidableEq, Repr

/-- Modelled from the spec: `InitSeq` (spec §4.4) resets the cycle count
and records the raw sequence number. -/
def InitSeq (raw : Nat) : RTPExtendedSequenceNumber :=
  { baseCycle := 0, lastSeen16 := raw % 65536 }

/-- Modelled from the spec: `UpdateSeq` (spec §4.4).  A backward step of
more than half the 16-bit space is a wrap (cycle count increments); a
smaller backward step reports a sequence regression (the `Bool` result)
without corrupting state; otherwise the last-seen value advances. -/
def UpdateSeq (t : RTPExtendedSequenceNumber) (rawSeq : Nat) :
    RTPExtendedSequenceNumber × Bool :=
  let raw := rawSeq % 65536
  if raw < t.lastSeen16 ∧ 32768 < t.lastSeen16 - raw then
    ({ baseCycle := t.baseCycle + 1, lastSeen16 := raw }, false)
  else if raw < t.lastSeen16 then
    (t, true)
  else
    ({ t with lastSeen16 := raw }, false)

/-- Modelled from the spec: the read-only accessor returning
`cycle*65536 + raw` (spec §4.4). -/
def ReadExtendedSeq (t : RTPExtendedSequenceNumber) : Nat :=
  t.baseCycle * 65536 + t.lastSeen16

/-- Embedding of `rtp.Header` (external pion type, wire format fixed by
spec §6): version, flags, payload type, sequence number, timestamp and
SSRC.  No contributing-source list is modelled (the writer always emits
none and the reader claims do not inspect it). -/
structure RTPHeader where
  version : Nat
  padding : Bool
  extension : Bool
  marker : Bool
  payloadType : Nat
  sequenceNumber : Nat
  timestamp : Nat
  ssrc : Nat
deriving DecidableEq, Repr

/-- The zero value of `rtp.Header`, as Go initializes struct fields. -/
def zeroRTPHeader : RTPHeader :=
  { version := 0, padding := false, extension := false, marker := false,
    payloadType := 0, sequenceNumber := 0, timestamp := 0, ssrc := 0 }

/-- Embedding of `rtp.Packet`: header plus payload bytes. -/
structure RTPPacket where
  header : RTPHeader
  payload : List Nat
deriving DecidableEq, Repr

/-- Modelled from the spec: `rtp.Packet.Unmarshal` of the external pion
library, on the spec §6 wire format — a fixed 12-byte header (version in
the top 2 bits of byte 0, marker in the top bit of byte 1, 7-bit payload
type, big-endian sequence number, timestamp and SSRC) followed by the
payload.  Parsing fails on fewer than 12 bytes; the claims below only
exercise packets without contributing sources, padding or extensions. -/
def rtpUnmarshal (b : List Nat) : Option (RTPHeader × List Nat) :=
  if b.length < 12 then
    none
  else
    some
      ({ version := b.getD 0 0 / 64,
         padding := b.getD 0 0 / 32 % 2 = 1,
         extension := b.getD 0 0 / 16 % 2 = 1,
         marker := b.getD 1 0 / 128 = 1,
         payloadType := b.getD 1 0 % 128,
         sequenceNumber := b.getD 2 0 * 256 + b.getD 3 0,
         timestamp := ((b.getD 4 0 * 256 + b.getD 5 0) * 256 + b.getD 6 0) * 256 + b.getD 7 0,
         ssrc := ((b.getD 8 0 * 256 + b.getD 9 0) * 256 + b.getD 10 0) * 256 + b.getD 11 0 },
       b.drop 12)

/-! ## RTP reader (`rtp_reader.go`)

The reader turns inbound datagrams into a payload byte stream.  The RTP
socket is modelled as an explicit queue of datagrams (byte lists): one
blocking `ReadRTPRaw` pops the head, delivering at most the caller's
buffer length of it (UDP truncates a datagram to the receive buffer); an
empty queue models a closed socket, whose `net.ErrClosed` the reader maps
to `io.EOF`. -/

/-- Modelled from the spec: `sdp.FormatNumeric` of the external `sdp`
package maps a format identifier string ("0", "8", …) to its numeric
payload type; format identifiers are decimal strings (spec §6). -/
def FormatNumeric (f : String) : Nat :=
  f.data.foldl (fun acc c => acc * 10 + (c.toNat - 48)) 0

/-- Embedding of the `RTPReader` state (`rtp_reader.go` lines 14–30): the
expected payload type, the stored last header, the extended-sequence
state, the pending (unread) payload remainder and the last observed
SSRC. -/
structure RTPReader where
  payloadType : Nat
  packetHeader : RTPHeader
  seq : RTPExtendedSequenceNumber
  unreadPayload : List Nat
  unread : Nat
  lastSSRC : Nat
deriving DecidableEq, Repr

/-- Embedding of `NewRTPReader` (`rtp_reader.go` lines 34–56): reads
element 0 of the session's format list to fix the expected payload type —
`none` models the index panic on an empty list — and zero-initializes the
remaining state. -/
def NewRTPReader (formats : List String) : Option RTPReader :=
  match formats with
  | [] => none
  | f :: _ =>
    some { payloadType := FormatNumeric f, packetHeader := zeroRTPHeader,
           seq := { baseCycle := 0, lastSeen16 := 0 },
           unreadPayload := [], unread := 0, lastSSRC := 0 }

/-- Errors surfaced by `RTPReader.Read`.  `eof` embeds the `io.EOF`
translation of `net.ErrClosed`; `unmarshalErr` a header parse failure;
`payloadTypeMismatch` the payload-type check. -/
inductive ReadErr where
  | eof
  | unmarshalErr
  | payloadTypeMismatch (expected actual : Nat)
deriving DecidableEq, Repr

/-- Embedding of `RTPReader.readPayload` (`rtp_reader.go` lines 109–118):
copies the payload into the caller's buffer of length `blen`, returning
the bytes that land in the buffer; when the payload does not fit, the
remainder is stored as unread pending payload. -/
def readPayload (r : RTPReader) (blen : Nat) (payload : List Nat) :
    List Nat × RTPReader :=
  let n := min blen payload.length
  if n < payload.length then
    (payload.take n,
     { r with unreadPayload := payload.drop n, unread := payload.length - n })
  else
    (payload.take n, { r with unread := 0 })

/-- Embedding of `RTPReader.Read` (`rtp_reader.go` lines 61–107) against a
buffer of length `blen` and the socket's queue of pending datagrams.
Returns the bytes copied into the caller's buffer (whose length is the Go
return count), the new reader state and the remaining queue.  A pending
unread payload is drained first without touching the socket.  Otherwise
one datagram is read **into the caller's buffer** — so at most `blen` of
its bytes survive — parsed, checked against the expected payload type, the
sequence tracker is advanced (re-initialized when the SSRC changed), the
header is stored, and the packet's payload is copied to the front of the
buffer. -/
def RTPReaderRead (r : RTPReader) (sock : List (List Nat)) (blen : Nat) :
    Except ReadErr (List Nat) × RTPReader × List (List Nat) :=
  if 0 < r.unread then
    let (out, r2) := readPayload r blen r.unreadPayload
    (Except.ok out, r2, sock)
  else
    match sock with
    | [] => (Except.error ReadErr.eof, r, [])
    | dgram :: rest =>
      let b := dgram.take blen
      match rtpUnmarshal b with
      | none => (Except.error ReadErr.unmarshalErr, r, rest)
      | some (hdr, payload) =>
        if r.payloadType ≠ hdr.payloadType then
          (Except.error (ReadErr.payloadTypeMismatch r.payloadType hdr.payloadType),
           r, rest)
        else
          let seq2 :=
            if r.lastSSRC == hdr.ssrc then (UpdateSeq r.seq hdr.sequenceNumber).1
            else InitSeq hdr.sequenceNumber
          let r1 := { r with seq := seq2, lastSSRC := hdr.ssrc, packetHeader := hdr }
          let (out, r2) := readPayload r1 blen payload
          (Except.ok out, r2, rest)

/-! ## RTP writer (`rtp_writer.go`)

The writer packetizes payload frames.  Transmission and the pacing ticker
are runtime effects; the built packet is returned alongside the payload
byte count and the new writer state.  The sequence number step is the
tracker's `NextSeqNumber` (source file missing from this snapshot),
modelled from spec §3: starts at a random 16-bit value, increments by 1
per packet, wraps modulo 2^16. -/

/-- Embedding of the `RTPWriter` state (`rtp_writer.go`): payload type,
SSRC, the configured timestamp delta per packet, the timestamp cursor
(`nextTimestamp`, a `uint32`), the next sequence number and the last
packet sent. -/
structure RTPWriter where
  payloadType : Nat
  ssrc : Nat
  clockRateTimestamp : Nat
  nextTimestamp : Nat
  seqNumber : Nat
  lastPacket : Option RTPPacket
deriving DecidableEq, Repr

/-- Embedding of `NewRTPWriter` (ticker variant, `rtp_writer.go`): reads
element 0 of the session's format list (`none` models the index panic on
an empty list), fixes an 8000 Hz sample rate with a 20 ms clock so the
timestamp delta is 160, and starts the timestamp cursor at 0 (Go zero
value).  The random SSRC and random initial sequence number are inputs. -/
def NewRTPWriter (formats : List String) (ssrc : Nat) (initSeq : Nat) :
    Option RTPWriter :=
  match formats with
  | [] => none
  | f :: _ =>
    some { payloadType := FormatNumeric f, ssrc := ssrc % 4294967296,
           clockRateTimestamp := 8000 * 20 / 1000, nextTimestamp := 0,
           seqNumber := initSeq % 65536, lastPacket := none }

/-- Embedding of the second `NewRTPWriter` variant (pion-sequencer
variant): converts the whole format list to numeric payload types first
(`Formats.ToNumeric`, external `sdp` package, modelled as a map over the
numeric identifier strings) and indexes element 0 of the result — `none`
models the index panic when the session's format list is empty. -/
def NewRTPWriterNoTicker (formats : List String) (ssrc : Nat) (initSeq : Nat) :
    Option RTPWriter :=
  match formats.map FormatNumeric with
  | [] => none
  | pt :: _ =>
    some { payloadType := pt % 256, ssrc := ssrc % 4294967296,
           clockRateTimestamp := 8000 * 20 / 1000, nextTimestamp := 0,
           seqNumber := initSeq % 65536, lastPacket := none }

/-- Embedding of `RTPWriter.WriteSamples` (`rtp_writer.go`): builds a
version-2 packet with no padding/extension, the given marker and payload
type, the current timestamp cursor, the next sequence number and the
writer's SSRC; stores it as the last packet, advances the timestamp cursor
by `clockRateTimestamp` (wrapping as a `uint32`), and hands the packet to
the session for transmission.  Returns the packet, the accepted payload
byte count and the new state. -/
def WriteSamples (p : RTPWriter) (payload : List Nat) (clockRateTimestamp : Nat)
    (marker : Bool) (payloadType : Nat) : RTPPacket × Nat × RTPWriter :=
  let pkt : RTPPacket :=
    { header :=
        { version := 2, padding := false, extension := false, marker := marker,
          payloadType := payloadType, sequenceNumber := p.seqNumber,
          timestamp := p.nextTimestamp, ssrc := p.ssrc },
      payload := payload }
  (pkt, payload.length,
   { p with seqNumber := (p.seqNumber + 1) % 65536,
            nextTimestamp := (p.nextTimestamp + clockRateTimestamp) % 4294967296,
            lastPacket := some pkt })

/-- Embedding of `RTPWriter.Write` (`rtp_writer.go`, ticker variant lines
89–93 and sequencer variant lines 67–74): `WriteSamples` with the
configured clock delta and payload type, the marker set exactly when the
timestamp cursor is 0; the subsequent ticker wait is a pure pacing delay
with no effect on state. -/
def RTPWriterWrite (p : RTPWriter) (b : List Nat) : RTPPacket × Nat × RTPWriter :=
  WriteSamples p b p.clockRateTimestamp (p.nextTimestamp == 0) p.payloadType

/-- A sequence of `Write` calls: the stream of packets emitted for a list
of payload frames, together with the final writer state. -/
def writeRun (p : RTPWriter) (frames : List (List Nat)) :
    List RTPPacket × RTPWriter :=
  match frames with
  | [] => ([], p)
  | b :: rest =>
    let step := RTPWriterWrite p b
    let tail := writeRun step.2.2 rest
    (step.1 :: tail.1, tail.2)

/-- The marker bits of the packets emitted by a sequence of `Write`
calls. -/
def markersOf (p : RTPWriter) (frames : List (List Nat)) : List Bool :=
  (writeRun p frames).1.map (fun pkt => pkt.header.marker)

/-- A concrete writer as `NewRTPWriter` builds it (payload type 0, some
SSRC and initial sequence number): timestamp cursor 0, clock delta 160. -/
def demoWriter : RTPWriter :=
  { payloadType := 0, ssrc := 7, clockRateTimestamp := 160, nextTimestamp := 0,
    seqNumber := 100, lastPacket := none }

/-- A concrete reader as `NewRTPReader` builds it on the default format
list (expected payload type 0, zeroed state). -/
def demoReader : RTPReader :=
  { payloadType := 0, packetHeader := zeroRTPHeader,
    seq := { baseCycle := 0, lastSeen16 := 0 },
    unreadPayload := [], unread := 0, lastSSRC := 0 }

/-- An inbound RTP datagram: version-2 header (payload type 0, sequence
number 1, SSRC 1) followed by a 100-byte payload of 7s — 112 bytes on the
wire. -/
def bigDatagram : List Nat :=
  [128, 0, 0, 1, 0, 0, 0, 0, 0, 0, 0, 1] ++ List.replicate 100 7

/-- A second inbound RTP datagram (payload type 0, sequence number 2, SSRC
1) with a 4-byte payload of 9s. -/
def smallDatagram : List Nat :=
  [128, 0, 0, 2, 0, 0, 0, 0, 0, 0, 0, 1] ++ List.replicate 4 9

/-! ## Theorems: format negotiation -/

/-- Inner loop of `updateFormats`: scanning the local list appends `cr`
once per occurrence of `cr` in it. -/
theorem updateFormats_inner (sFormats : List String) (cr : String) (acc : List String) :
    sFormats.foldl (fun filter cs => if cr = cs then filter ++ [cr] else filter) acc
      = acc ++ List.replicate (sFormats.count cr) cr := by
  induction sFormats generalizing acc with
  | nil => simp
  | cons cs rest ih =>
    by_cases h : cr = cs
    · subst h
      simp [List.foldl_cons, ih, List.count_cons_self, List.replicate_succ]
    · have hne : ¬ (cs = cr) := fun hh => h hh.symm
      simp [List.count_cons, h, hne, ih]

/-- Outer loop of `updateFormats` with an explicit accumulator. -/
theorem updateFormats_loop (sFormats formats : List String) (acc : List String) :
    formats.foldl
      (fun filter cr =>
        sFormats.foldl (fun filter cs => if cr = cs then filter ++ [cr] else filter) filter)
      acc
      = acc ++ formats.flatMap (fun cr => List.replicate (sFormats.count cr) cr) := by
  induction formats generalizing acc with
  | nil => simp
  | cons cr rest ih =>
    rw [List.foldl_cons, updateFormats_inner, ih]
    simp [List.append_assoc]

/-- Closed form of `updateFormats` on a non-empty local list: each remote
format is repeated as many times as it occurs in the local list. -/
theorem updateFormats_eq_flatMap (sFormats formats : List String) (h : sFormats ≠ []) :
    updateFormats sFormats formats
      = formats.flatMap (fun cr => List.replicate (sFormats.count cr) cr) := by
  have hlen : 0 < sFormats.length := List.length_pos.mpr h
  simp [updateFormats, hlen, updateFormats_loop]

/-- When the remote answer shares no format with the (non-empty) local
list, `updateFormats` produces the empty list. -/
theorem updateFormats_of_disjoint (sFormats formats : List String)
    (h : sFormats ≠ []) (hdisj : ∀ f ∈ formats, f ∉ sFormats) :
    updateFormats sFormats formats = [] := by
  rw [updateFormats_eq_flatMap sFormats formats h]
  induction formats with
  | nil => simp
  | cons cr rest ih =>
    have hcr : cr ∉ sFormats := hdisj cr (by simp)
    have hcount : sFormats.count cr = 0 := List.count_eq_zero.mpr hcr
    have hrest : ∀ f ∈ rest, f ∉ sFormats := fun f hf => hdisj f (by simp [hf])
    simp [hcount, ih hrest]

/-- C1: the claim as stated is false.  With local formats `["0","8"]` and
the disjoint remote answer `["3"]`, the negotiation step does not fail:
`RemoteSDP` returns success (`nil` error) and `updateFormats` silently
replaces the session's format list with the empty list; no `NoCommonFormat`
error exists in the code. -/
theorem remoteSDP_disjoint_succeeds_counterexample :
    updateFormats ["0", "8"] ["3"] = [] ∧
    remoteSDPNegotiate (NewMediaSessionState { ip := "127.0.0.1", port := 40000 })
        "1.2.3.4" 5000 ["3"]
      = Except.ok
          { raddr := some { ip := "1.2.3.4", port := 5000 },
            rtcpRaddr := some { ip := "1.2.3.4", port := 5001 },
            laddr := { ip := "127.0.0.1", port := 40000 },
            formats := [] } := by
  constructor
  · rfl
  · rfl

/-- C1 (amended): for every non-empty local format list and every remote
answer disjoint from it, the negotiation step does **not** fail — it
returns success and sets the session's format list to the empty list
(there is no `NoCommonFormat` error path). -/
theorem remoteSDP_disjoint_empty_formats (s : MediaSession) (ip : String)
    (port : Nat) (remote : List String) (h : s.formats ≠ [])
    (hdisj : ∀ f ∈ remote, f ∉ s.formats) :
    remoteSDPNegotiate s ip port remote
      = Except.ok
          { s with raddr := some { ip := ip, port := port },
                   rtcpRaddr := some { ip := ip, port := port + 1 },
                   formats := [] } := by
  simp [remoteSDPNegotiate, SetRemoteAddr, updateFormats_of_disjoint _ _ h hdisj]

/-- C1 witness: the amended statement evaluated at local `["0","8"]`,
remote `["3"]`. -/
theorem remoteSDP_disjoint_empty_formats_witness :
    remoteSDPNegotiate (NewMediaSessionState { ip := "127.0.0.1", port := 40000 })
        "1.2.3.4" 5000 ["3"]
      = Except.ok
          { raddr := some { ip := "1.2.3.4", port := 5000 },
            rtcpRaddr := some { ip := "1.2.3.4", port := 5001 },
            laddr := { ip := "127.0.0.1", port := 40000 },
            formats := [] } := by
  have h := remoteSDP_disjoint_empty_formats
    (NewMediaSessionState { ip := "127.0.0.1", port := 40000 })
    "1.2.3.4" 5000 ["3"] (by decide) (by decide)
  simpa [NewMediaSessionState, FORMAT_TYPE_ULAW, FORMAT_TYPE_ALAW] using h

/-- C3: the claim as stated is false.  With the (degenerate) local format
list `["8","8"]` and remote answer `["8"]`, the code's nested intersection
loop appends the remote format once per matching local entry, yielding
`["8","8"]` instead of "exactly the elements of the remote answer that
also occur in the local list" (`["8"]`). -/
theorem updateFormats_duplicate_counterexample :
    updateFormats ["8", "8"] ["8"] = ["8", "8"] ∧
    specNegotiatedFormats ["8", "8"] ["8"] = ["8"] ∧
    updateFormats ["8", "8"] ["8"] ≠ specNegotiatedFormats ["8", "8"] ["8"] := by
  refine ⟨rfl, rfl, ?_⟩
  decide

/-- C3 (amended): for every non-empty local format list **without
duplicate entries** (the spec's data model calls it an ordered set) and
every remote answer list, negotiation sets the session's formats to
exactly the elements of the remote answer that also occur in the local
list, in the remote answer's order. -/
theorem updateFormats_eq_specNegotiatedFormats (sFormats formats : List String)
    (h : sFormats ≠ []) (hnd : sFormats.Nodup) :
    updateFormats sFormats formats = specNegotiatedFormats sFormats formats := by
  rw [updateFormats_eq_flatMap sFormats formats h, specNegotiatedFormats]
  induction formats with
  | nil => simp
  | cons cr rest ih =>
    by_cases hmem : cr ∈ sFormats
    · have hcount : sFormats.count cr = 1 := List.count_eq_one_of_mem hnd hmem
      simp [hcount, hmem, ih]
    · have hcount : sFormats.count cr = 0 := List.count_eq_zero.mpr hmem
      simp [hcount, hmem, ih]

/-- C3 witness: local `["0","8"]` (duplicate-free), remote answer `["8"]`
negotiates to `["8"]`. -/
theorem updateFormats_eq_specNegotiatedFormats_witness :
    updateFormats ["0", "8"] ["8"] = ["8"] := by
  have h := updateFormats_eq_specNegotiatedFormats ["0", "8"] ["8"]
    (by decide) (by decide)
  simpa [specNegotiatedFormats] using h

/-! ## Theorems: remote address bookkeeping -/

/-- C2: the RTP/RTCP pairing invariant breaks.  `SetRemoteAddr` establishes
`rtcpRaddr = Raddr` with port+1, but `UpdateDestinationSDP` mutates
`Raddr`'s IP and port in place without refreshing `rtcpRaddr`: after
`SetRemoteAddr` to port 4000 followed by `UpdateDestinationSDP` moving the
remote to port 5000, the remote RTP port is 5000 while the remote RTCP
port is still 4001 ≠ 5001. -/
theorem updateDestinationSDP_stale_rtcpRaddr :
    (SetRemoteAddr (NewMediaSessionState { ip := "127.0.0.1", port := 40000 })
        { ip := "1.2.3.4", port := 4000 }).rtcpRaddr
      = some { ip := "1.2.3.4", port := 4001 } ∧
    updateDestinationSDPNegotiate
        (SetRemoteAddr (NewMediaSessionState { ip := "127.0.0.1", port := 40000 })
          { ip := "1.2.3.4", port := 4000 })
        "1.2.3.4" 5000 ["0"]
      = some
          { raddr := some { ip := "1.2.3.4", port := 5000 },
            rtcpRaddr := some { ip := "1.2.3.4", port := 4001 },
            laddr := { ip := "127.0.0.1", port := 40000 },
            formats := ["0"] } ∧
    (4001 : Nat) ≠ 5000 + 1 := by
  refine ⟨rfl, rfl, by decide⟩

/-! ## Theorems: raw RTP writes -/

/-- A transport whose datagram write always transmits one byte fewer than
the buffer, reporting no error of its own. -/
def droppingConn : PacketConn :=
  { writeTo := fun data _ => (data.length - 1, none) }

/-- C6: the claim as stated is false.  `WriteRTPRaw` forwards the
transport's byte count and error unchanged: on a transport that transmits
only 4 of 5 bytes, `WriteRTPRaw` returns count 4 with **no** error — the
short write is not reported to its caller. -/
theorem writeRTPRaw_no_shortWrite_counterexample :
    WriteRTPRaw droppingConn { ip := "1.2.3.4", port := 5000 } [1, 2, 3, 4, 5]
      = (4, none) ∧ (4 : Nat) < 5 := by
  exact ⟨rfl, by decide⟩

/-- C6 (amended): `WriteRTPRaw` returns the underlying datagram write's
byte count and error unchanged; the short-write check lives in its caller
`WriteRTP`, which reports `io.ErrShortWrite` whenever the transport
transmits fewer bytes than the marshalled packet length without its own
error. -/
theorem writeRTP_reports_shortWrite (conn : PacketConn) (raddr : UDPAddr)
    (data : List Nat) (n : Nat) (h : conn.writeTo data raddr = (n, none))
    (hn : n ≠ data.length) :
    WriteRTPRaw conn raddr data = (n, none) ∧
    WriteRTPMarshalled conn raddr data = some WriteErr.shortWrite := by
  refine ⟨h, ?_⟩
  simp [WriteRTPMarshalled, WriteRTPRaw, h, hn]

/-- C6 witness: the short-writing transport on a 5-byte buffer. -/
theorem writeRTP_reports_shortWrite_witness :
    WriteRTPRaw droppingConn { ip := "1.2.3.4", port := 5000 } [1, 2, 3, 4, 5]
      = (4, none) ∧
    WriteRTPMarshalled droppingConn { ip := "1.2.3.4", port := 5000 } [1, 2, 3, 4, 5]
      = some WriteErr.shortWrite :=
  writeRTP_reports_shortWrite droppingConn { ip := "1.2.3.4", port := 5000 }
    [1, 2, 3, 4, 5] 4 rfl (by decide)

/-! ## Theorems: DTMF codec -/

/-- C7: round-trip of the 4-byte DTMF packing.  For every valid event
(event code 0–15, volume 0–63, 16-bit duration, either end-of-event flag),
decoding the encoding yields the event back. -/
theorem DTMFDecode_quad (b0 b1 b2 b3 : Nat) :
    DTMFDecode [b0, b1, b2, b3]
      = some { event := b0, endOfEvent := decide (b1 &&& 128 ≠ 0),
               volume := b1 &&& 127, duration := b2 * 256 + b3 } := rfl

theorem dtmf_decode_encode_roundtrip (e : DTMFEvent) (he : e.event ≤ 15)
    (hv : e.volume ≤ 63) (hd : e.duration ≤ 65535) :
    DTMFDecode (DTMFEncode e) = some e := by
  obtain ⟨ev, eoe, v, dur⟩ := e
  simp only at he hv hd
  have hev : ev % 256 = ev := Nat.mod_eq_of_lt (by omega)
  have hdur : dur % 65536 = dur := Nat.mod_eq_of_lt (by omega)
  have hvolmod : v % 256 = v := Nat.mod_eq_of_lt (by omega)
  have henc : DTMFEncode ⟨ev, eoe, v, dur⟩
      = [ev, (if eoe then 128 else 0) ||| (v &&& 63), dur / 256, dur % 256] := by
    simp [DTMFEncode, hev, hdur, hvolmod]
  rw [henc, DTMFDecode_quad]
  simp only [Option.some.injEq, DTMFEvent.mk.injEq]
  refine ⟨trivial, ?_, ?_, by omega⟩
  · cases eoe <;> interval_cases v <;> decide
  · cases eoe <;> interval_cases v <;> decide

/-- C7 witness: the round-trip at event 5, end-of-event set, volume 10,
duration 800. -/
theorem dtmf_decode_encode_roundtrip_witness :
    DTMFDecode (DTMFEncode { event := 5, endOfEvent := true, volume := 10,
                             duration := 800 })
      = some { event := 5, endOfEvent := true, volume := 10, duration := 800 } :=
  dtmf_decode_encode_roundtrip
    { event := 5, endOfEvent := true, volume := 10, duration := 800 }
    (by decide) (by decide) (by decide)

/-- C8: `RTPDTMFEncode '5'` yields exactly 7 events — the first four with
durations 160, 320, 480, 640 and the end-of-event flag clear, the last
three with duration 800 and the flag set, all carrying event code 5. -/
theorem rtpDTMFEncode_five :
    (RTPDTMFEncode '5').length = 7 ∧
    (RTPDTMFEncode '5').map (fun e => e.duration)
      = [160, 320, 480, 640, 800, 800, 800] ∧
    (RTPDTMFEncode '5').map (fun e => e.endOfEvent)
      = [false, false, false, false, true, true, true] ∧
    ∀ e ∈ RTPDTMFEncode '5', e.event = 5 := by
  refine ⟨rfl, rfl, rfl, ?_⟩
  decide

/-- C9: the claim as stated is false.  `'X'` is outside the digit/letter
table, yet `RTPDTMFEncode 'X'` does not fail — the Go map lookup yields
the zero value 0, so it produces the usual 7 events, all carrying event
code 0 (indistinguishable from encoding `'0'`). -/
theorem rtpDTMFEncode_unknown_counterexample :
    dtmfEventMapping 'X' = none ∧
    (RTPDTMFEncode 'X').length = 7 ∧
    (∀ e ∈ RTPDTMFEncode 'X', e.event = 0) ∧
    RTPDTMFEncode 'X' = RTPDTMFEncode '0' := by
  refine ⟨rfl, rfl, ?_, rfl⟩
  decide

/-- C9 (amended): for every character outside the fixed digit/letter
table, `RTPDTMFEncode` does not fail with `UnknownDigit` (no such error
exists); it produces the same 7-event sequence as `'0'`, with event code
0. -/
theorem rtpDTMFEncode_unknown_eq_zero (c : Char) (h : dtmfEventMapping c = none) :
    RTPDTMFEncode c = RTPDTMFEncode '0' ∧ ∀ e ∈ RTPDTMFEncode c, e.event = 0 := by
  constructor
  · have h0 : dtmfEventMapping '0' = some 0 := rfl
    simp [RTPDTMFEncode, h, h0]
  · intro e he
    simp only [RTPDTMFEncode, h, Option.getD_none, List.mem_append,
      List.mem_map, List.mem_range] at he
    rcases he with ⟨i, _, rfl⟩ | ⟨i, _, rfl⟩ <;> rfl

/-- C9 witness: the amended statement at `'X'`. -/
theorem rtpDTMFEncode_unknown_eq_zero_witness :
    RTPDTMFEncode 'X' = RTPDTMFEncode '0' ∧ ∀ e ∈ RTPDTMFEncode 'X', e.event = 0 :=
  rtpDTMFEncode_unknown_eq_zero 'X' (by decide)

/-! ## Theorems: constructor preconditions -/

/-- C10: `NewRTPReader` and both `NewRTPWriter` variants read element 0 of
the session's negotiated format list unconditionally: they return a
constructed reader/writer exactly when the format list is non-empty, and
on an empty list (as negotiation can leave it, see the C1 theorems) the
index-0 access has no defined result — so non-empty `Formats` is a
required precondition of the constructors. -/
theorem constructors_defined_iff_formats_nonempty (formats : List String)
    (ssrc initSeq : Nat) :
    ((NewRTPReader formats).isSome ∧ (NewRTPWriter formats ssrc initSeq).isSome ∧
        (NewRTPWriterNoTicker formats ssrc initSeq).isSome)
      ↔ formats ≠ [] := by
  cases formats with
  | nil => simp [NewRTPReader, NewRTPWriter, NewRTPWriterNoTicker]
  | cons f rest => simp [NewRTPReader, NewRTPWriter, NewRTPWriterNoTicker]

/-! ## Theorems: writer marker bit -/

/-- `demoWriter` is what `NewRTPWriter` constructs on the default format
list. -/
theorem demoWriter_eq_new : NewRTPWriter ["0", "8"] 7 100 = some demoWriter := rfl

/-- Closed form of the marker bits over a run of `Write` calls: the `i`-th
emitted packet carries the marker exactly when the timestamp cursor,
which advances by the configured clock delta per packet modulo 2^32, is 0
at that packet. -/
theorem markersOf_closed (frames : List (List Nat)) (p : RTPWriter)
    (h : p.nextTimestamp < 4294967296) :
    markersOf p frames
      = (List.range frames.length).map
          (fun i => (p.nextTimestamp + i * p.clockRateTimestamp) % 4294967296 == 0) := by
  induction frames generalizing p with
  | nil => simp [markersOf, writeRun]
  | cons b rest ih =>
    have h2 : ((RTPWriterWrite p b).2.2).nextTimestamp < 4294967296 :=
      Nat.mod_lt _ (by norm_num)
    have ih2 := ih ((RTPWriterWrite p b).2.2) h2
    have e1 : ((RTPWriterWrite p b).2.2).nextTimestamp
        = (p.nextTimestamp + p.clockRateTimestamp) % 4294967296 := rfl
    have e2 : ((RTPWriterWrite p b).2.2).clockRateTimestamp
        = p.clockRateTimestamp := rfl
    have hcons : markersOf p (b :: rest)
        = (p.nextTimestamp == 0) :: markersOf ((RTPWriterWrite p b).2.2) rest := rfl
    rw [hcons, ih2, e1, e2, List.length_cons, List.range_succ_eq_map,
      List.map_cons, List.map_map]
    congr 1
    · simp [Nat.mod_eq_of_lt h]
    · apply List.map_congr_left
      intro i _
      simp only [Function.comp_apply]
      congr 1
      rw [Nat.mod_add_mod, Nat.succ_eq_add_one]
      ring_nf

/-- C5: the claim as stated is false.  On a writer with the configured
clock delta 160 and timestamp cursor starting at 0, the 134217729-th
`Write` (index 134217728, well after the first packet) carries the marker
bit again: the `uint32` timestamp cursor has wrapped back to exactly 0
(134217728 · 160 = 5 · 2^32), and `Write` sets the marker whenever the
cursor is 0 — not only on the first packet of the stream's lifetime. -/
theorem write_marker_refires_counterexample :
    (markersOf demoWriter (List.replicate 134217729 [])).getD 134217728 false
        = true ∧
    (134217728 : Nat) ≠ 0 := by
  have hm := markersOf_closed (List.replicate 134217729 []) demoWriter
    (by norm_num [demoWriter])
  rw [List.length_replicate] at hm
  refine ⟨?_, by decide⟩
  rw [hm]
  have hr : (List.range 134217729)[134217728]? = some 134217728 :=
    List.getElem?_range (by norm_num)
  rw [List.getD_eq_getElem?_getD, List.getElem?_map, hr]
  show ((demoWriter.nextTimestamp + 134217728 * demoWriter.clockRateTimestamp)
      % 4294967296 == 0) = true
  decide

/-- C5 (amended): for a writer whose timestamp cursor starts at 0, over
any sequence of `Write` calls (each using the fixed configured clock
delta), the `i`-th emitted packet's marker bit is set exactly when
`i · delta ≡ 0 (mod 2^32)` — true on the first packet, false on every
later packet until the 32-bit timestamp cursor wraps back to 0 (first
again at packet index 2^32 / gcd(delta, 2^32), i.e. 134217728 for the
configured delta 160). -/
theorem write_marker_iff_timestamp_zero (p : RTPWriter) (frames : List (List Nat))
    (h0 : p.nextTimestamp = 0) :
    markersOf p frames
      = (List.range frames.length).map
          (fun i => (i * p.clockRateTimestamp) % 4294967296 == 0) := by
  have h := markersOf_closed frames p (by omega)
  simpa [h0] using h

/-- C5 witness: three `Write` calls on the freshly constructed writer mark
only the first packet. -/
theorem write_marker_iff_timestamp_zero_witness :
    markersOf demoWriter [[1], [2], [3]] = [true, false, false] := by
  have h := write_marker_iff_timestamp_zero demoWriter [[1], [2], [3]] rfl
  rw [h]
  decide

/-! ## Theorems: reader payload draining -/

/-- `demoReader` is what `NewRTPReader` constructs on the default format
list. -/
theorem demoReader_eq_new : NewRTPReader ["0", "8"] = some demoReader := rfl

/-- The pending-payload mechanism of `Read` is unreachable: because the
datagram is received **into the caller's buffer**, the parsed payload can
never be longer than that buffer, so a reader whose `unread` count is 0
still has `unread = 0` after any `Read` — the remainder-buffering branch
of `readPayload` never fires through `Read`'s socket path. -/
theorem rtpUnmarshal_payload_length (b : List Nat) (hdr : RTPHeader)
    (payload : List Nat) (h : rtpUnmarshal b = some (hdr, payload)) :
    payload.length = b.length - 12 := by
  by_cases hb : b.length < 12
  · simp [rtpUnmarshal, hb] at h
  · simp only [rtpUnmarshal, if_neg hb, Option.some.injEq, Prod.mk.injEq] at h
    rw [← h.2, List.length_drop]

theorem RTPReaderRead_unread_zero (r : RTPReader) (sock : List (List Nat))
    (blen : Nat) (h : r.unread = 0) :
    ((RTPReaderRead r sock blen).2.1).unread = 0 := by
  rw [RTPReaderRead.eq_def, if_neg (by omega)]
  cases sock with
  | nil => exact h
  | cons dgram rest =>
    cases hu : rtpUnmarshal (dgram.take blen) with
    | none => simp [hu, h]
    | some pr =>
      obtain ⟨hdr, payload⟩ := pr
      have hplen : payload.length ≤ blen := by
        have hl := rtpUnmarshal_payload_length _ _ _ hu
        rw [List.length_take] at hl
        omega
      simp only [hu]
      by_cases hpt : r.payloadType = hdr.payloadType
      · simp only [hpt, ne_eq, not_true_eq_false, if_false, readPayload]
        rw [if_neg (by omega)]
      · simp [hpt, h]

/-- C4: evaluation at the failing input.  With a 20-byte caller buffer and
an inbound 112-byte datagram (12-byte header + 100-byte payload of 7s),
`Read` does **not** return 20 bytes and buffer the remaining 92: the
datagram is truncated to the buffer at the socket, `Read` returns only the
8 payload bytes that survived (20 − 12), leaves `unread = 0`, and the very
next `Read` performs a fresh socket read, returning the **next**
datagram's payload — the 92 excess bytes of the first payload are dropped,
contradicting both the returned-count clause and the
no-byte-dropped/no-socket-read clause of the claim. -/
theorem reader_truncates_oversized_payload :
    (RTPReaderRead demoReader [bigDatagram, smallDatagram] 20).1
        = Except.ok (List.replicate 8 7) ∧
    (List.replicate 8 7).length = 8 ∧
    (8 : Nat) ≠ 20 ∧
    (RTPReaderRead demoReader [bigDatagram, smallDatagram] 20).2.1.unread = 0 ∧
    (RTPReaderRead demoReader [bigDatagram, smallDatagram] 20).2.2
        = [smallDatagram] ∧
    (RTPReaderRead (RTPReaderRead demoReader [bigDatagram, smallDatagram] 20).2.1
          (RTPReaderRead demoReader [bigDatagram, smallDatagram] 20).2.2 20).1
        = Except.ok (List.replicate 4 9) ∧
    (RTPReaderRead (RTPReaderRead demoReader [bigDatagram, smallDatagram] 20).2.1
          (RTPReaderRead demoReader [bigDatagram, smallDatagram] 20).2.2 20).2.2
        = [] := by
  refine ⟨rfl, rfl, by decide, rfl, rfl, rfl, rfl⟩

end Sipgox
